import Mathlib

/-!
Verification development for the tornet_scraper repository.

The definitions below are shallow embeddings of the Python source:
  - app/scrapers/marketplace_scraper.py  (pagination batching, listing scraper)
  - app/routes/marketplace.py            (listing scan start / batch execution / finalization)
  - app/routes/posts.py                  (post-detail scan start / item pipeline / finalization)
  - app/services/tornet_forum_login.py   (captcha extraction and login attempt loop)
  - app/database/models.py               (table rows and uniqueness constraints)

External library calls (json.loads, eval, langdetect.detect, the translation and
classification HTTP services, unicodedata.normalize) are modelled as oracle
parameters: each definition takes the outcome of the external call as an input,
with `Option`/`Except` encoding the raised-exception and failure cases.
-/

namespace Tornet

/-- The `ScanStatus` enum from app/database/models.py. -/
inductive ScanStatus
  | running
  | completed
  | stopped
deriving DecidableEq, Repr

/-- The `BotPurpose` enum from app/database/models.py. -/
inductive BotPurpose
  | scrape_marketplace
  | scrape_post
  | scrape_profile
deriving DecidableEq, Repr

/-- The `BotProfile` row (app/database/models.py).  The nullable `session` Text
column is an `Option String`; `none` is SQL NULL. -/
structure BotProfile where
  id : Nat
  username : String
  purpose : BotPurpose
  tor_proxy : String
  user_agent : String
  session : Option String
deriving DecidableEq, Repr

/-- Python `range(start, stop, step)` for a positive step, as the list of
visited indices. -/
def pyRangeStep (start stop step : Nat) : List Nat :=
  (List.range ((stop - start + step - 1) / step)).map (fun k => start + k * step)

/-- Python `range(max_page, 0, -1)`: the pages `max_page, max_page-1, ..., 1`
(empty when `max_page ≤ 0`). -/
def pyRangeDown (max_page : Int) : List Int :=
  (List.range max_page.toNat).map (fun (k : Nat) => max_page - (k : Int))

/-- Function `create_pagination_batches` from app/scrapers/marketplace_scraper.py.
`fmt` stands for `url_template.format(page=page)`.  The Python function
returns `json.dumps` of a dict `{f"{i//10 + 1}": all_urls[i:i+10]}` built in
insertion order over `range(0, len(all_urls), 10)`; we keep the dict as the
ordered key-value list it serializes. -/
def create_pagination_batches (fmt : Int → String) (max_page : Int) :
    List (String × List String) :=
  if max_page < 1 then []
  else
    (pyRangeStep 0 ((pyRangeDown max_page).map fmt).length 10).map
      (fun i => (toString (i / 10 + 1), (((pyRangeDown max_page).map fmt).drop i).take 10))

/-- Character class `[A-Z0-9]` of the regex in `clean_captcha_text`
(app/services/tornet_forum_login.py). -/
def isCaptchaChar (c : Char) : Bool :=
  ('A' ≤ c && c ≤ 'Z') || ('0' ≤ c && c ≤ '9')

/-- Leftmost match of the regex `[A-Z0-9]{6}`, as `re.search` computes it:
try a 6-character window at every position from the left, return the first
window whose characters are all uppercase alphanumerics. -/
def searchSix : List Char → Option (List Char)
  | [] => none
  | c :: rest =>
    if ((c :: rest).take 6).length = 6 && ((c :: rest).take 6).all isCaptchaChar then
      some ((c :: rest).take 6)
    else
      searchSix rest

/-- Function `clean_captcha_text` from app/services/tornet_forum_login.py: returns the
first 6-character run of uppercase letters/digits found by `re.search`, or
`None` when no such run exists. -/
def clean_captcha_text (captcha_text : List Char) : Option (List Char) :=
  searchSix captcha_text

/-- Python `str.strip()`: remove leading and trailing whitespace. -/
def pyStrip (s : String) : String :=
  ⟨((s.data.dropWhile Char.isWhitespace).reverse.dropWhile Char.isWhitespace).reverse⟩

/-- Function `solve_captcha` from app/services/tornet_forum_login.py, with the external
effects as oracle inputs: `resize_ok` is the outcome of `resize_image`,
`b64` the outcome of `image_to_base64` (`none` = failure), and
`api_response` the vision service's reply text (`none` = the API call raised).
The reply is `.strip()`ped and then filtered through `clean_captcha_text`;
a `None` from the cleaner makes the whole solve fail. -/
def solve_captcha (resize_ok : Bool) (b64 : Option String)
    (api_response : Option String) : Option (List Char) :=
  if !resize_ok then none
  else
    match b64 with
    | none => none
    | some _ =>
      match api_response with
      | none => none
      | some txt =>
        match clean_captcha_text (pyStrip txt).data with
        | none => none
        | some cleaned => some cleaned

/-- Does `needle` occur at the head of `hay`? -/
def seqStarts : List Char → List Char → Bool
  | [], _ => true
  | _ :: _, [] => false
  | a :: as, b :: bs => a = b && seqStarts as bs

/-- Python `needle in hay` on strings (substring containment). -/
def containsSeq (needle : List Char) : List Char → Bool
  | [] => seqStarts needle []
  | c :: t => seqStarts needle (c :: t) || containsSeq needle t

/-- Outcome of one pass of the `while True` login loop in
`login_to_tor_website` (app/services/tornet_forum_login.py). -/
inductive AttemptOutcome
  | success
  | invalidCreds
  | retry
deriving DecidableEq, Repr

/-- One iteration of the login loop, from the point where the CAPTCHA image
was located: `solved` is the result of `solve_captcha` and `resp` the text of
the login POST response (`none` = the request raised).  A failed solve or a
transport error increments the attempt counter and retries; the response text
(lowercased by the code) is classified into invalid-credentials (terminal),
invalid-captcha (retry), success, or unexpected-response (retry). -/
def login_attempt (solved : Option (List Char)) (resp : Option String) :
    AttemptOutcome :=
  match solved with
  | none => .retry
  | some _ =>
    match resp with
    | none => .retry
    | some text =>
      let lowered := text.data.map Char.toLower
      if containsSeq "invalid username or password".data lowered then .invalidCreds
      else if containsSeq "invalid captcha".data lowered then .retry
      else if containsSeq "profile".data lowered && containsSeq "logout".data lowered then
        .success
      else .retry

/-- Maximal runs of `isCaptchaChar` characters in a text, written to compare
the code against the spec's phrase "exactly one run of 6 uppercase
alphanumeric characters".  `acc` is the (reversed) run in progress. -/
def captchaRunsAux : List Char → List Char → List (List Char)
  | [], acc => if acc.isEmpty then [] else [acc.reverse]
  | c :: rest, acc =>
    if isCaptchaChar c then captchaRunsAux rest (c :: acc)
    else if acc.isEmpty then captchaRunsAux rest []
    else acc.reverse :: captchaRunsAux rest []

/-- The maximal uppercase-alphanumeric runs of a text. -/
def captchaRuns (s : List Char) : List (List Char) :=
  captchaRunsAux s []

/-- The spec's acceptance rule, taken at its word: the answer contains exactly
one run of 6 uppercase alphanumeric characters. -/
def specExactlyOneRunOfSix (s : List Char) : Bool :=
  ((captchaRuns s).filter (fun r => r.length = 6)).length = 1

/-- The value stored under one timestamp key of the `posts` dict built by
`scrape_posts` (app/scrapers/marketplace_scraper.py). -/
structure RawPost where
  title : String
  author : String
  link : String
deriving DecidableEq, Repr

/-- One successfully parsed table row of a listing page: the four selected
cells (title, author, timestamp, link). -/
structure ScrapedRow where
  title : String
  author : String
  timestamp : String
  link : String
deriving DecidableEq, Repr

/-- Python dict assignment `m[k] = v` on a dict kept as an insertion-ordered
association list: an existing key keeps its position but its value is
replaced; a new key is appended. -/
def dictUpsert (m : List (String × RawPost)) (k : String) (v : RawPost) :
    List (String × RawPost) :=
  if m.any (fun p => p.1 = k) then
    m.map (fun p => if p.1 = k then (k, v) else p)
  else
    m ++ [(k, v)]

/-- Processing of one pagination page inside `scrape_posts`
(app/scrapers/marketplace_scraper.py).  `page = none` models a request
exception or a page with no results table (both `continue` to the next URL);
a `none` row models an `AttributeError` while selecting the row's cells
(logged and skipped).  Only the first 10 table rows are visited
(`table_rows[:10]`), and each parsed row is stored into the dict keyed by its
timestamp string. -/
def scrape_page (posts : List (String × RawPost))
    (page : Option (List (Option ScrapedRow))) : List (String × RawPost) :=
  match page with
  | none => posts
  | some rows =>
    (rows.take 10).foldl
      (fun acc r? =>
        match r? with
        | none => acc
        | some r => dictUpsert acc r.timestamp ⟨r.title, r.author, r.link⟩)
      posts

/-- Function `scrape_posts` (app/scrapers/marketplace_scraper.py): fold the page
processing over the pagination range, starting from the empty dict. -/
def scrape_posts (pages : List (Option (List (Option ScrapedRow)))) :
    List (String × RawPost) :=
  pages.foldl scrape_page []

/-- Value of key `k` in the posts dict. -/
def dictGet (m : List (String × RawPost)) (k : String) : Option RawPost :=
  (m.find? (fun p => p.1 = k)).map (fun p => p.2)

/-- The `MarketplacePost` row (app/database/models.py), without the surrogate id. -/
structure MarketplacePostRow where
  scan_id : Nat
  timestamp : String
  title : String
  author : String
  link : String
deriving DecidableEq, Repr

/-- The `uix_scan_timestamp` unique constraint of `marketplace_posts`
(app/database/models.py line 102): no two stored rows agree on
`(scan_id, timestamp)`. -/
def uixScanTimestamp (table : List MarketplacePostRow) : Prop :=
  ∀ r1 ∈ table, ∀ r2 ∈ table,
    r1.scan_id = r2.scan_id → r1.timestamp = r2.timestamp → r1 = r2

/-- The four-field natural key the spec states for listing items:
`(scan, timestamp, title, link)` unique. -/
def uixScanTsTitleLink (table : List MarketplacePostRow) : Prop :=
  ∀ r1 ∈ table, ∀ r2 ∈ table,
    r1.scan_id = r2.scan_id → r1.timestamp = r2.timestamp →
    r1.title = r2.title → r1.link = r2.link → r1 = r2

/-- The duplicate-checked insert of `sync_scrape_batch`
(app/routes/marketplace.py lines 307-326): query for an existing row with the
same `(scan_id, timestamp, title, link)`; add a new row only if none exists,
otherwise skip silently. -/
def insert_marketplace_post (db : List MarketplacePostRow) (scan_id : Nat)
    (timestamp title author link : String) : List MarketplacePostRow :=
  if db.any (fun r =>
      r.scan_id = scan_id && r.timestamp = timestamp &&
      r.title = title && r.link = link) then
    db
  else
    db ++ [⟨scan_id, timestamp, title, author, link⟩]

/-- Python `.encode('ascii', 'ignore').decode('ascii')`: drop every non-ASCII
character. -/
def asciiEncodeIgnore (s : String) : String :=
  ⟨s.data.filter (fun c => c.toNat < 128)⟩

/-- The title sanitization applied in the `eval` fallback of
`sync_scrape_batch` (app/routes/marketplace.py lines 291-298): NFKC-normalize
(the library call is the oracle `nfkc`), strip to ASCII, and rebuild the dict
with the original author and link. -/
def sanitize_posts (nfkc : String → String) (raw : List (String × RawPost)) :
    List (String × RawPost) :=
  raw.map (fun p =>
    (p.1, { title := asciiEncodeIgnore (nfkc p.2.title),
            author := p.2.author, link := p.2.link }))

/-- The parse pipeline of `sync_scrape_batch` (app/routes/marketplace.py lines
282-303).  `jsonLoads` is the outcome of `json.loads(posts_data_raw)` (`none`
= `JSONDecodeError`); `evalRaw` is the outcome of
`eval(posts_data_raw) if posts_data_raw else {}` together with the per-post
field accesses in the sanitize loop (`none` = any exception there, which the
code re-raises, failing the batch).  On a JSON decode error the code falls
back to `eval` on the same untrusted text and continues with the sanitized
result. -/
def parse_posts_data (nfkc : String → String)
    (jsonLoads : Option (List (String × RawPost)))
    (evalRaw : Option (List (String × RawPost))) :
    Except String (List (String × RawPost)) :=
  match jsonLoads with
  | some posts_data => .ok posts_data
  | none =>
    match evalRaw with
    | none => .error "Failed to sanitize JSON"
    | some raw_dict => .ok (sanitize_posts nfkc raw_dict)

/-- Finalization of the marketplace listing scan (`scrape_batches`,
app/routes/marketplace.py lines 345-364).  The batch tasks are awaited with
`asyncio.gather(*tasks, return_exceptions=True)`, so per-batch exceptions come
back as return values and are discarded; the code then unconditionally sets
`status = COMPLETED`.  The `except` branch that sets `STOPPED` can only be
reached by an exception raised outside the gathered tasks (e.g. by the
finalization database block itself), modelled by `finalize_raises`. -/
def scrape_batches_status (batch_results : List (Except String Unit))
    (finalize_raises : Bool) : ScanStatus :=
  if finalize_raises then ScanStatus.stopped else ScanStatus.completed

/-- The `MarketplacePostScan` row (app/database/models.py); dates abstracted to
`Option Nat` (`none` = SQL NULL). -/
structure MarketplacePostScanRow where
  id : Nat
  scan_name : String
  pagination_scan_name : String
  start_date : Option Nat
  completion_date : Option Nat
  status : ScanStatus
deriving DecidableEq, Repr

/-- The `MarketplacePaginationScan` row (app/database/models.py); the `batches`
Text column is kept as the decoded dict (`json.loads(scan.batches) if
scan.batches else {}` of app/routes/marketplace.py line 250). -/
structure MarketplacePaginationScanRow where
  scan_name : String
  pagination_url : String
  max_page : Int
  batches : List (String × List String)
deriving DecidableEq, Repr

/-- The `PostDetailScan` row (app/database/models.py). -/
structure PostDetailScanRow where
  id : Nat
  scan_name : String
  source_scan_name : String
  start_date : Option Nat
  completion_date : Option Nat
  status : ScanStatus
  batch_size : Nat
  site_url : String
deriving DecidableEq, Repr

/-- The `APIs` row (app/database/models.py), the fields the scan-start code
reads. -/
structure APIRow where
  api_type : String
  is_active : Bool
  api_key : String
  model : String
  prompt : String
  max_tokens : Nat
deriving DecidableEq, Repr

/-- The eligibility filter of the marketplace scan start
(app/routes/marketplace.py lines 230-233): purpose `scrape_marketplace` and
`session.isnot(None)`.  Note: an empty-string session passes this filter. -/
def marketplace_bot_active (b : BotProfile) : Bool :=
  b.purpose = BotPurpose.scrape_marketplace && b.session.isSome

/-- The eligibility filter of the post-detail scan start
(app/routes/posts.py lines 190-194): purpose `scrape_post`,
`session.isnot(None)` and `session != ""`. -/
def post_bot_active (b : BotProfile) : Bool :=
  b.purpose = BotPurpose.scrape_post && b.session.isSome &&
    !(b.session = some "")

/-- The rejection reasons of the two scan-start endpoints: the
`HTTPException`s raised before the status is touched, plus `internalError`
for an exception (such as the `ValueError` of a zero-step `range`) that
escapes to the endpoint's generic handler and is reported as a 500, likewise
before the status commit. -/
inductive StartError
  | scanNotFound
  | alreadyRunning
  | apisNotFound
  | noActiveBots
  | paginationNotFound
  | noBatches
  | sourceNotFound
  | noPosts
  | noSiteUrl
  | internalError
deriving DecidableEq, Repr

/-- The batch key `f"batch_{n:03d}"` of app/routes/posts.py line 236:
the index zero-padded to at least three digits. -/
def batchKey (n : Nat) : String :=
  "batch_" ++ (if n < 10 then "00" ++ toString n
    else if n < 100 then "0" ++ toString n
    else toString n)

/-- The batch-partitioning loop of the post-detail scan start
(app/routes/posts.py lines 233-236): `for i in range(0, len(post_data),
batch_size)` slices `post_data` into `batch_size`-sized batches keyed
`batch_001, batch_002, ...`.  A zero `batch_size` (storable — the column is
unvalidated) makes `range` raise `ValueError: range() arg 3 must not be zero`
before anything is built. -/
def create_post_batches (post_data : List (String × String)) (batch_size : Nat) :
    Except String (List (String × List (String × String))) :=
  if batch_size = 0 then .error "range() arg 3 must not be zero"
  else
    .ok ((pyRangeStep 0 post_data.length batch_size).map
      (fun i => (batchKey (i / batch_size + 1), (post_data.drop i).take batch_size)))

/-- Endpoint `start_post_scan` for the marketplace listing scan
(app/routes/marketplace.py lines 216-263), up to the point where the scan
status is committed as `RUNNING`; every earlier `raise HTTPException` is an
error that leaves the scan untouched.  The checks run in source order:
scan exists; not already running; an active bot exists; the referenced
pagination scan exists; its decoded batches dict is nonempty.  On success the
scan's status becomes `RUNNING` with the completion date cleared. -/
def start_marketplace_post_scan (scans : List MarketplacePostScanRow)
    (bots : List BotProfile) (paginations : List MarketplacePaginationScanRow)
    (scan_id : Nat) (now : Nat) :
    Except StartError (List MarketplacePostScanRow) :=
  match scans.find? (fun s => s.id = scan_id) with
  | none => .error .scanNotFound
  | some db_scan =>
    if db_scan.status = ScanStatus.running then .error .alreadyRunning
    else if (bots.filter marketplace_bot_active).isEmpty then .error .noActiveBots
    else
      match paginations.find? (fun p => p.scan_name = db_scan.pagination_scan_name) with
      | none => .error .paginationNotFound
      | some pagination_scan =>
        if pagination_scan.batches.isEmpty then .error .noBatches
        else
          .ok (scans.map (fun s =>
            if s.id = scan_id then
              { s with status := ScanStatus.running,
                       start_date := some now, completion_date := none }
            else s))

/-- Endpoint `start_post_scan` for the post-detail scan (app/routes/posts.py lines
150-242), up to the `RUNNING` commit, with the checks in source order:
scan exists; not already running; active `translation_api` and `iab_api` rows
exist; an active bot exists; the source scan exists with a completion date and
status `COMPLETED`; the source scan has posts; the stored site URL is not the
empty string; and the batch-partitioning loop over the source posts'
`(link, timestamp)` pairs (lines 233-236) runs without raising — a zero
stored `batch_size` raises `ValueError` there, which the endpoint's generic
handler turns into a 500 with the scan still untouched. -/
def start_post_detail_scan (scans : List PostDetailScanRow)
    (apis : List APIRow) (bots : List BotProfile)
    (source_scans : List MarketplacePostScanRow)
    (marketplace_posts : List MarketplacePostRow)
    (scan_id : Nat) (now : Nat) :
    Except StartError (List PostDetailScanRow) :=
  match scans.find? (fun s => s.id = scan_id) with
  | none => .error .scanNotFound
  | some db_scan =>
    if db_scan.status = ScanStatus.running then .error .alreadyRunning
    else
      match apis.find? (fun a => a.api_type = "translation_api" && a.is_active),
            apis.find? (fun a => a.api_type = "iab_api" && a.is_active) with
      | some _, some _ =>
        if (bots.filter post_bot_active).isEmpty then .error .noActiveBots
        else
          match source_scans.find? (fun s =>
              s.scan_name = db_scan.source_scan_name &&
              s.completion_date.isSome && s.status = ScanStatus.completed) with
          | none => .error .sourceNotFound
          | some source_scan =>
            if (marketplace_posts.filter (fun p => p.scan_id = source_scan.id)).isEmpty then
              .error .noPosts
            else if db_scan.site_url = "" then .error .noSiteUrl
            else
              match create_post_batches
                  ((marketplace_posts.filter (fun p => p.scan_id = source_scan.id)).map
                    (fun p => (p.link, p.timestamp))) db_scan.batch_size with
              | .error _ => .error .internalError
              | .ok _ =>
                .ok (scans.map (fun s =>
                  if s.id = scan_id then
                    { s with status := ScanStatus.running,
                             start_date := some now, completion_date := none }
                  else s))
      | _, _ => .error .apisNotFound

/-- The dict `json.loads(scrape_post_details(...))` yields for one post:
`error` is the optional "error" key; the other four are the required fields,
each present or absent. -/
structure ScrapedPayload where
  error : Option String
  title : Option String
  content : Option String
  author : Option String
  timestamp : Option String
deriving DecidableEq, Repr

/-- One half of the structure `translate_string` (app/scrapers/post_scraper.py)
serializes: a text (None when DeepL did not translate) and a language tag. -/
structure TransField where
  text : Option String
  language : Option String
deriving DecidableEq, Repr

/-- The parsed `translate_string` response: `original` and `translated`
sub-dicts, plus the "translated" boolean of the `translated` sub-dict. -/
structure TransPair where
  original : TransField
  translated : TransField
  translated_flag : Bool
deriving DecidableEq, Repr

/-- The parsed `iab_classify` response, read through `.get` in
app/routes/posts.py lines 391-395 (each key may be absent). -/
structure IabResult where
  classification : Option String
  sentiment : Option String
  scores_positive : Option ℚ
  scores_negative : Option ℚ
  scores_neutral : Option ℚ
deriving DecidableEq, Repr

/-- The `MarketplacePostDetails` row exactly as mapped in app/database/models.py
lines 119-140 (surrogate id and `timestamp_added` default omitted).  Note:
there is no `classification` column. -/
structure MarketplacePostDetailsRow where
  scan_id : Nat
  batch_name : String
  title : String
  content : String
  timestamp : String
  author : String
  link : String
  original_language : Option String
  original_text : Option String
  translated_language : Option String
  translated_text : Option String
  is_translated : Bool
  sentiment : Option String
  positive_score : Option ℚ
  negative_score : Option ℚ
  neutral_score : Option ℚ
deriving DecidableEq, Repr

/-- The mapped column names of `MarketplacePostDetails`
(app/database/models.py lines 119-140). -/
def marketplace_post_details_columns : List String :=
  ["id", "scan_id", "batch_name", "title", "content", "timestamp", "author",
   "link", "original_language", "original_text", "translated_language",
   "translated_text", "is_translated", "sentiment", "positive_score",
   "negative_score", "neutral_score", "timestamp_added"]

/-- The keyword arguments `sync_scrape_post` passes to the
`MarketplacePostDetails(...)` constructor (app/routes/posts.py lines
378-396). -/
def post_details_insert_kwargs : List String :=
  ["scan_id", "batch_name", "title", "content", "timestamp", "author", "link",
   "original_language", "original_text", "translated_language",
   "translated_text", "is_translated", "classification", "sentiment",
   "positive_score", "negative_score", "neutral_score"]

/-- SQLAlchemy's default declarative constructor accepts a keyword argument
set only when every keyword names a mapped class attribute; otherwise it
raises `TypeError`. -/
def declarative_kwargs_ok (columns kwargs : List String) : Bool :=
  kwargs.all (fun k => columns.contains k)

/-- The language-detection block of `sync_scrape_post` (app/routes/posts.py
lines 300-307): a blank (stripped-empty) title or content skips the
`detect` call for that field and uses `'en'`; a raised `detect` (oracle value
`none`) lands in the `except` branch, which sets BOTH languages to
`'unknown'`. -/
def detect_langs (title content : String)
    (detect_title detect_content : Option String) : String × String :=
  match (if pyStrip title = "" then some "en" else detect_title) with
  | none => ("unknown", "unknown")
  | some title_lang =>
    match (if pyStrip content = "" then some "en" else detect_content) with
    | none => ("unknown", "unknown")
    | some content_lang => (title_lang, content_lang)

/-- The translate-or-skip branch of `sync_scrape_post` (app/routes/posts.py
lines 309-345): when both detected languages are `'en'` the code builds the
translation pairs locally (original = translated = the normalized text,
`translated: False`) without calling the service; otherwise it calls
`translate_string` once per field and fails the item when a response does not
parse (`none` oracle). -/
def translate_step (full_url : String) (title content : String)
    (langs : String × String) (title_trans content_trans : Option TransPair) :
    Except String (TransPair × TransPair) :=
  if langs.1 = "en" && langs.2 = "en" then
    .ok (⟨⟨some title, some "en"⟩, ⟨some title, some "en"⟩, false⟩,
         ⟨⟨some content, some "en"⟩, ⟨some content, some "en"⟩, false⟩)
  else
    match title_trans with
    | none => .error ("Translation JSON error for " ++ full_url ++ " (title)")
    | some t =>
      match content_trans with
      | none => .error ("Translation JSON error for " ++ full_url ++ " (content)")
      | some c => .ok (t, c)

/-- Python `a or b` over the optional translated text used when building the
classification prompt (app/routes/posts.py line 350): `None` and the empty
string fall through to `b`. -/
def pyOrText (a b : Option String) : Option String :=
  match a with
  | none => b
  | some s => if s = "" then b else some s

/-- The outcomes of the external calls made while processing one post inside
`sync_scrape_post` (app/routes/posts.py lines 255-405), each `none` encoding
the corresponding raised/failed case:
`scraped_raw_empty` = `scrape_post_details` returned a falsy string;
`scraped_json` = `json.loads` of that string;
`detect_title`/`detect_content` = `langdetect.detect` per field;
`title_trans`/`content_trans` = parsed `translate_string` responses;
`iab` = parsed `iab_classify` response;
`duplicate_exists` = the natural-key query on
`(scan_id, timestamp, batch_name)` found an existing row. -/
structure ItemEnv where
  scraped_raw_empty : Bool
  scraped_json : Option ScrapedPayload
  detect_title : Option String
  detect_content : Option String
  title_trans : Option TransPair
  content_trans : Option TransPair
  iab : Option IabResult
  duplicate_exists : Bool
deriving DecidableEq, Repr

/-- Result of processing one post: an error message appended to
`scan_errors` (the loop continues), a silent duplicate skip, or a row handed
to the batch transaction. -/
inductive ItemResult
  | err (msg : String)
  | dupSkip
  | inserted (row : MarketplacePostDetailsRow)
deriving DecidableEq, Repr

/-- One iteration of the per-post loop of `sync_scrape_post`
(app/routes/posts.py lines 255-405), in source order: empty raw data; JSON
decode of the scraped payload; the payload's "error" key; the four required
fields; the timestamp consistency check against the listing's recorded
timestamp; NFKC + ASCII normalization of title and content; language
detection; the translate-or-skip branch (both `'en'` builds the local
untranslated pair, anything else calls the translation service per field and
fails the item if a response does not parse); the classification call; the
duplicate check; and finally the `MarketplacePostDetails(...)` construction,
whose keyword arguments include `classification` — a keyword with no mapped
column, so the constructor raises `TypeError`, caught by the generic
per-item handler as a processing error. -/
def sync_scrape_post_item (nfkc : String → String) (env : ItemEnv)
    (scan_id : Nat) (batch_name : String) (post_timestamp : String)
    (full_url : String) : ItemResult :=
  if env.scraped_raw_empty then
    .err ("No data returned for " ++ full_url)
  else
    match env.scraped_json with
    | none => .err ("JSON parse error for " ++ full_url)
    | some scraped_data =>
      match scraped_data.error with
      | some e => .err ("Scraping error for " ++ full_url ++ ": " ++ e)
      | none =>
        match scraped_data.title, scraped_data.content,
              scraped_data.author, scraped_data.timestamp with
        | some title0, some content0, some author, some ts =>
          if ts ≠ post_timestamp then
            .err ("Timestamp mismatch for " ++ full_url)
          else
            match translate_step full_url (asciiEncodeIgnore (nfkc title0))
                (asciiEncodeIgnore (nfkc content0))
                (detect_langs (asciiEncodeIgnore (nfkc title0))
                  (asciiEncodeIgnore (nfkc content0))
                  env.detect_title env.detect_content)
                env.title_trans env.content_trans with
            | .error m => .err m
            | .ok (_, content_trans) =>
              match pyOrText content_trans.translated.text content_trans.original.text with
              | none => .err ("Processing error for " ++ full_url)
              | some _ =>
                match env.iab with
                | none => .err ("IAB JSON error for " ++ full_url)
                | some iab_result =>
                  if env.duplicate_exists then .dupSkip
                  else if declarative_kwargs_ok marketplace_post_details_columns
                      post_details_insert_kwargs then
                    .inserted
                      { scan_id := scan_id, batch_name := batch_name,
                        title := asciiEncodeIgnore (nfkc title0),
                        content := asciiEncodeIgnore (nfkc content0), timestamp := ts,
                        author := author, link := full_url,
                        original_language := content_trans.original.language,
                        original_text := content_trans.original.text,
                        translated_language := content_trans.translated.language,
                        translated_text := content_trans.translated.text,
                        is_translated := content_trans.translated_flag,
                        sentiment := iab_result.sentiment,
                        positive_score := iab_result.scores_positive,
                        negative_score := iab_result.scores_negative,
                        neutral_score := iab_result.scores_neutral }
                  else
                    .err ("Processing error for " ++ full_url)
        | _, _, _, _ =>
          .err ("Incomplete data for " ++ full_url ++ ": missing fields")

/-- The per-post loop of one batch: every item is processed, the outcome of
one item never aborts the loop. -/
def run_batch_items (nfkc : String → String) (scan_id : Nat)
    (batch_name : String) (items : List (ItemEnv × String × String)) :
    List ItemResult :=
  items.map (fun it => sync_scrape_post_item nfkc it.1 scan_id batch_name it.2.1 it.2.2)

/-- The message an `ItemResult` contributes to `scan_errors` (duplicates and
successful inserts contribute none). -/
def item_error : ItemResult → Option String
  | .err m => some m
  | .dupSkip => none
  | .inserted _ => none

/-- The `scan_errors` list of `scrape_post_batches` (app/routes/posts.py):
every item-level error appended during the loops, followed by the messages
appended for batch tasks that came back as exceptions from
`asyncio.gather(..., return_exceptions=True)` (lines 430-434). -/
def collect_scan_errors (item_results : List ItemResult)
    (batch_results : List (Except String Unit)) : List String :=
  item_results.filterMap item_error ++
    batch_results.filterMap (fun r =>
      match r with
      | .error m => some ("Batch failed: " ++ m)
      | .ok _ => none)

/-- Finalization of the post-detail scan (app/routes/posts.py lines 436-449):
a nonempty `scan_errors` sets the scan `STOPPED` with a completion date,
an empty one sets it `COMPLETED`. -/
def scrape_post_batches_status (scan_errors : List String) : ScanStatus :=
  if scan_errors.isEmpty then ScanStatus.completed else ScanStatus.stopped

/-! ## Helper lemmas -/

lemma pyRangeStep_zero_ten (stop : ℕ) :
    pyRangeStep 0 stop 10 = (List.range ((stop + 9) / 10)).map (fun k => k * 10) := by
  simp [pyRangeStep]

lemma chunk_flatten {α : Type} (l : List α) (n : ℕ) :
    ((List.range n).map (fun k => (l.drop (k * 10)).take 10)).flatten = l.take (n * 10) := by
  induction n with
  | zero => simp
  | succ m ih =>
    rw [List.range_succ, List.map_append, List.flatten_append, ih]
    simp only [List.map_cons, List.map_nil, List.flatten_cons, List.flatten_nil,
      List.append_nil]
    rw [Nat.succ_mul, List.take_add]

lemma create_pagination_batches_eq (fmt : Int → String) (max_page : Int)
    (h : 1 ≤ max_page) :
    create_pagination_batches fmt max_page =
      (List.range ((max_page.toNat + 9) / 10)).map
        (fun k => (toString (k + 1),
          (((pyRangeDown max_page).map fmt).drop (k * 10)).take 10)) := by
  have hnl : ¬ max_page < 1 := by omega
  have hlen : ((pyRangeDown max_page).map fmt).length = max_page.toNat := by
    simp only [pyRangeDown, List.length_map, List.length_range]
  unfold create_pagination_batches
  rw [if_neg hnl]
  rw [hlen, pyRangeStep_zero_ten, List.map_map]
  refine List.map_congr_left (fun k _ => ?_)
  have : k * 10 / 10 = k := Nat.mul_div_cancel k (by norm_num)
  simp [Function.comp, this]

/-! ## C5 -/

/-- C5: for every url template and `maxPage ≥ 1`, `create_pagination_batches`
produces `ceil(maxPage/10)` batches, each holding at most 10 URLs, whose
concatenation enumerates the pages in descending order from `maxPage` down to
1 (the page list is pairwise decreasing and contains exactly the pages
`1..maxPage`), with batch key `"1"` holding the highest page numbers; and for
`maxPage < 1` it returns zero batches rather than an error. -/
theorem c5_pagination_partition (fmt : Int → String) (max_page : Int) :
    (max_page < 1 → create_pagination_batches fmt max_page = []) ∧
    (1 ≤ max_page →
      (create_pagination_batches fmt max_page).length = (max_page.toNat + 9) / 10 ∧
      (∀ b ∈ create_pagination_batches fmt max_page, b.2.length ≤ 10) ∧
      ((create_pagination_batches fmt max_page).map Prod.snd).flatten
          = (pyRangeDown max_page).map fmt ∧
      (create_pagination_batches fmt max_page).head?
          = some ("1", ((pyRangeDown max_page).map fmt).take 10) ∧
      (∀ p : Int, p ∈ pyRangeDown max_page ↔ 1 ≤ p ∧ p ≤ max_page) ∧
      List.Pairwise (fun a b : Int => b < a) (pyRangeDown max_page)) := by
  constructor
  · intro h
    simp [create_pagination_batches, h]
  · intro h
    have hlen : ((pyRangeDown max_page).map fmt).length = max_page.toNat := by
      simp only [pyRangeDown, List.length_map, List.length_range]
    have hceil : max_page.toNat ≤ ((max_page.toNat + 9) / 10) * 10 := by
      have h1 := Nat.div_add_mod (max_page.toNat + 9) 10
      have h2 : (max_page.toNat + 9) % 10 < 10 := Nat.mod_lt _ (by norm_num)
      omega
    rw [create_pagination_batches_eq fmt max_page h]
    refine ⟨by simp, ?_, ?_, ?_, ?_, ?_⟩
    · intro b hb
      simp only [List.mem_map] at hb
      obtain ⟨k, _, rfl⟩ := hb
      simp [List.length_take]
    · rw [List.map_map]
      have : (Prod.snd ∘ fun k => (toString (k + 1),
          (((pyRangeDown max_page).map fmt).drop (k * 10)).take 10)) =
          fun k => (((pyRangeDown max_page).map fmt).drop (k * 10)).take 10 := rfl
      rw [this, chunk_flatten]
      exact List.take_of_length_le (by omega)
    · have hn : 1 ≤ (max_page.toNat + 9) / 10 := by
        have : (10 : ℕ) ≤ max_page.toNat + 9 := by omega
        omega
      obtain ⟨m, hm⟩ : ∃ m, (max_page.toNat + 9) / 10 = m + 1 := ⟨_, (Nat.succ_pred_eq_of_pos hn).symm⟩
      rw [hm, List.range_succ_eq_map]
      rfl
    · intro p
      simp only [pyRangeDown, List.mem_map, List.mem_range]
      constructor
      · rintro ⟨k, hk, rfl⟩
        omega
      · rintro ⟨h1, h2⟩
        exact ⟨(max_page - p).toNat, by omega, by omega⟩
    · unfold pyRangeDown
      exact (List.pairwise_lt_range _).map _ (fun a b hab => by omega)

/-- Witness for C5 at `maxPage = 23` (and the empty case at `maxPage = 0`). -/
theorem c5_pagination_partition_witness :
    (create_pagination_batches (fun p => toString p) 23).length = ((23 : Int).toNat + 9) / 10 ∧
    create_pagination_batches (fun p => toString p) 0 = [] := by
  refine ⟨((c5_pagination_partition (fun p => toString p) 23).2 (by norm_num)).1, ?_⟩
  exact (c5_pagination_partition (fun p => toString p) 0).1 (by norm_num)

/-! ## C1 -/

/-- C1 counterexample: in the marketplace listing path, a collected batch
outcome that is a failure still finalizes the scan as `Completed`
(`asyncio.gather(..., return_exceptions=True)` discards the exceptions and
the code unconditionally sets `COMPLETED`), contradicting the claim that any
failed batch outcome transitions the scan to `Stopped` on both paths. -/
theorem c1_counterexample :
    scrape_batches_status [Except.error "batch failed"] false = ScanStatus.completed ∧
    scrape_batches_status [Except.error "batch failed"] false ≠ ScanStatus.stopped :=
  ⟨rfl, by decide⟩

/-- C1 (amended): the post-detail finalization sets `Completed` exactly when
the collected `scan_errors` list is empty, which happens exactly when no item
outcome and no gathered batch outcome was a failure, and otherwise sets
`Stopped`; the marketplace listing finalization instead discards the batch
outcomes and always sets `Completed` (its `Stopped` branch fires only when
finalization itself raises). -/
theorem c1_finalization_amended (item_results : List ItemResult)
    (batch_results : List (Except String Unit)) :
    (collect_scan_errors item_results batch_results = [] ↔
      (∀ r ∈ item_results, item_error r = none) ∧
      (∀ r ∈ batch_results, ¬∃ m, r = Except.error m)) ∧
    (collect_scan_errors item_results batch_results = [] →
      scrape_post_batches_status (collect_scan_errors item_results batch_results) =
        ScanStatus.completed) ∧
    (collect_scan_errors item_results batch_results ≠ [] →
      scrape_post_batches_status (collect_scan_errors item_results batch_results) =
        ScanStatus.stopped) ∧
    (∀ results : List (Except String Unit),
      scrape_batches_status results false = ScanStatus.completed) := by
  have hbatch : ∀ r : Except String Unit,
      ((match r with
        | .error m => some ("Batch failed: " ++ m)
        | .ok _ => none) = (none : Option String)) ↔ ¬∃ m, r = Except.error m := by
    intro r
    cases r <;> simp
  refine ⟨?_, ?_, ?_, ?_⟩
  · simp only [collect_scan_errors, List.append_eq_nil, List.filterMap_eq_nil_iff]
    exact and_congr Iff.rfl (forall₂_congr (fun r _ => hbatch r))
  · intro h
    simp [scrape_post_batches_status, h]
  · intro h
    simp [scrape_post_batches_status, List.isEmpty_iff, h]
  · intro results
    simp [scrape_batches_status]

/-- Witness for C1's amended theorem: one failed item outcome makes the
post-detail scan finalize `Stopped`; no failures makes it `Completed`. -/
theorem c1_finalization_amended_witness :
    scrape_post_batches_status (collect_scan_errors [ItemResult.err "boom"] []) =
      ScanStatus.stopped ∧
    scrape_post_batches_status (collect_scan_errors [] []) = ScanStatus.completed :=
  ⟨(c1_finalization_amended [ItemResult.err "boom"] []).2.2.1 (by decide),
   (c1_finalization_amended [] []).2.1 (by decide)⟩

/-! ## C4 -/

/-- C4 counterexample: a post-detail item whose site-reported timestamp
differs from the recorded listing timestamp is skipped with an error message,
and that single item-level failure makes the scan finalize `Stopped`, not
`Completed` — so a failure below batch granularity does surface to the
scan's terminal status, contradicting the claim. -/
theorem c4_counterexample :
    sync_scrape_post_item id
      { scraped_raw_empty := false,
        scraped_json := some { error := none, title := some "T", content := some "C",
                               author := some "A", timestamp := some "2025-06-01" },
        detect_title := some "en", detect_content := some "en",
        title_trans := none, content_trans := none,
        iab := some { classification := some "Neutral", sentiment := some "neutral",
                      scores_positive := some 0, scores_negative := some 0,
                      scores_neutral := some 1 },
        duplicate_exists := false }
      1 "batch_001" "2025-01-01" "http://site/post" =
      ItemResult.err "Timestamp mismatch for http://site/post" ∧
    scrape_post_batches_status (collect_scan_errors
      [ItemResult.err "Timestamp mismatch for http://site/post"] []) =
      ScanStatus.stopped ∧
    ScanStatus.stopped ≠ ScanStatus.completed := by
  refine ⟨by decide, by decide, by decide⟩

/-- C4 (amended): a failure below batch granularity is absorbed by the loop —
the remaining items are still processed (every item of a batch yields an
outcome) and a timestamp mismatch yields an item error instead of an insert —
but every such failure is appended to `scan_errors`, and the post-detail scan
finalizes `Completed` only when `scan_errors` stayed empty; item-level
failures therefore surface to the terminal status exactly like batch-level
ones. -/
theorem c4_item_failures (nfkc : String → String) (scan_id : Nat)
    (batch_name : String) (items : List (ItemEnv × String × String))
    (batch_results : List (Except String Unit)) (env : ItemEnv)
    (payload : ScrapedPayload) (pts full_url : String)
    (title content author ts : String) :
    (run_batch_items nfkc scan_id batch_name items).length = items.length ∧
    (env.scraped_raw_empty = false → env.scraped_json = some payload →
      payload.error = none → payload.title = some title →
      payload.content = some content → payload.author = some author →
      payload.timestamp = some ts → ts ≠ pts →
      sync_scrape_post_item nfkc env scan_id batch_name pts full_url =
        ItemResult.err ("Timestamp mismatch for " ++ full_url)) ∧
    (scrape_post_batches_status
        (collect_scan_errors (run_batch_items nfkc scan_id batch_name items)
          batch_results) = ScanStatus.completed ↔
      collect_scan_errors (run_batch_items nfkc scan_id batch_name items)
        batch_results = []) := by
  refine ⟨by simp [run_batch_items], ?_, ?_⟩
  · intro h1 h2 h3 h4 h5 h6 h7 h8
    unfold sync_scrape_post_item
    rw [h2]
    simp only [h1, Bool.false_eq_true, if_false, h3, h4, h5, h6, h7]
    rw [if_pos h8]
  · by_cases h : collect_scan_errors (run_batch_items nfkc scan_id batch_name items)
        batch_results = []
    · simp [scrape_post_batches_status, h]
    · simp [scrape_post_batches_status, List.isEmpty_iff, h]

/-- Witness for C4's amended theorem at the concrete mismatching item. -/
theorem c4_item_failures_witness :
    sync_scrape_post_item id
      { scraped_raw_empty := false,
        scraped_json := some { error := none, title := some "T", content := some "C",
                               author := some "A", timestamp := some "b" },
        detect_title := some "en", detect_content := some "en",
        title_trans := none, content_trans := none, iab := none,
        duplicate_exists := false }
      1 "batch_001" "a" "u" = ItemResult.err ("Timestamp mismatch for " ++ "u") :=
  (c4_item_failures id 1 "batch_001" [] []
    { scraped_raw_empty := false,
      scraped_json := some { error := none, title := some "T", content := some "C",
                             author := some "A", timestamp := some "b" },
      detect_title := some "en", detect_content := some "en",
      title_trans := none, content_trans := none, iab := none,
      duplicate_exists := false }
    { error := none, title := some "T", content := some "C",
      author := some "A", timestamp := some "b" }
    "a" "u" "T" "C" "A" "b").2.1 rfl rfl rfl rfl rfl rfl rfl (by decide)

/-! ## C8 -/

/-- C8 counterexample: a blank title and blank content do NOT default language
detection to "unknown" — the code skips the `detect` call for a blank field
and uses `'en'`, so both fields come out `'en'` and translation is skipped
(`translated = false`, original = translated = the blank text) even though the
detection oracles would have raised; the claim said blank input defaults to
"unknown" and forces translation. -/
theorem c8_counterexample :
    detect_langs "" "" none none = ("en", "en") ∧
    detect_langs "" "" none none ≠ ("unknown", "unknown") ∧
    translate_step "u" "" "" (detect_langs "" "" none none) none none =
      .ok (⟨⟨some "", some "en"⟩, ⟨some "", some "en"⟩, false⟩,
           ⟨⟨some "", some "en"⟩, ⟨some "", some "en"⟩, false⟩) := by
  refine ⟨by decide, by decide, rfl⟩

/-- C8 (amended): detection defaults to "unknown" (which forces translation,
since "unknown" ≠ "en") exactly when a `detect` call raises on a non-blank
field; a blank field skips its `detect` call and defaults to `'en'`, so two
blank fields yield `('en','en')`; translation is skipped — both pairs built
locally with `translated = false` and original text equal to translated
text — precisely when both detected languages are `'en'`, and otherwise the
per-field translation-service responses are used. -/
theorem c8_language_detection (title content : String)
    (dt dc : Option String) (url : String) (tp cp : Option TransPair)
    (langs : String × String) :
    (pyStrip title ≠ "" → dt = none →
      detect_langs title content dt dc = ("unknown", "unknown")) ∧
    (pyStrip content ≠ "" → dc = none →
      detect_langs title content dt dc = ("unknown", "unknown")) ∧
    (pyStrip title = "" → pyStrip content = "" →
      detect_langs title content dt dc = ("en", "en")) ∧
    ("unknown", "unknown") ≠ ("en", "en") ∧
    (langs = ("en", "en") →
      translate_step url title content langs tp cp =
        .ok (⟨⟨some title, some "en"⟩, ⟨some title, some "en"⟩, false⟩,
             ⟨⟨some content, some "en"⟩, ⟨some content, some "en"⟩, false⟩)) ∧
    (langs ≠ ("en", "en") → ∀ t c, tp = some t → cp = some c →
      translate_step url title content langs tp cp = .ok (t, c)) ∧
    (langs ≠ ("en", "en") → tp = none →
      ∃ m, translate_step url title content langs tp cp = .error m) := by
  refine ⟨?_, ?_, ?_, by decide, ?_, ?_, ?_⟩
  · intro h1 h2
    unfold detect_langs
    rw [if_neg h1, h2]
  · intro h1 h2
    unfold detect_langs
    rw [if_neg h1, h2]
    rcases (if pyStrip title = "" then some "en" else dt) with _ | tl <;> rfl
  · intro h1 h2
    unfold detect_langs
    rw [if_pos h1, if_pos h2]
  · intro h
    subst h
    unfold translate_step
    rw [if_pos (by simp)]
  · intro h t c ht hc
    subst ht
    subst hc
    unfold translate_step
    rw [if_neg (by
      intro hcon
      exact h (by
        rcases langs with ⟨l1, l2⟩
        simp only [Bool.and_eq_true, decide_eq_true_eq] at hcon
        simp [hcon.1, hcon.2]))]
  · intro h ht
    subst ht
    unfold translate_step
    rw [if_neg (by
      intro hcon
      exact h (by
        rcases langs with ⟨l1, l2⟩
        simp only [Bool.and_eq_true, decide_eq_true_eq] at hcon
        simp [hcon.1, hcon.2]))]
    exact ⟨_, rfl⟩

/-- Witness for C8's amended theorem: a raised detection on a non-blank title
yields `("unknown","unknown")`, and non-`'en'` languages reach the
translation service. -/
theorem c8_language_detection_witness :
    detect_langs "hola" "mundo" none none = ("unknown", "unknown") ∧
    translate_step "u" "hola" "mundo" ("es", "es")
        (some ⟨⟨some "hola", some "es"⟩, ⟨some "hello", some "EN"⟩, true⟩)
        (some ⟨⟨some "mundo", some "es"⟩, ⟨some "world", some "EN"⟩, true⟩) =
      .ok (⟨⟨some "hola", some "es"⟩, ⟨some "hello", some "EN"⟩, true⟩,
           ⟨⟨some "mundo", some "es"⟩, ⟨some "world", some "EN"⟩, true⟩) := by
  constructor
  · exact (c8_language_detection "hola" "mundo" none none "u" none none
      ("es", "es")).1 (by decide) rfl
  · exact (c8_language_detection "hola" "mundo" none none "u"
      (some ⟨⟨some "hola", some "es"⟩, ⟨some "hello", some "EN"⟩, true⟩)
      (some ⟨⟨some "mundo", some "es"⟩, ⟨some "world", some "EN"⟩, true⟩)
      ("es", "es")).2.2.2.2.2.1 (by decide) _ _ rfl rfl

/-! ## C7 -/

/-- C7: the listing-item insert of `sync_scrape_batch` is idempotent on the
natural key `(scan_id, timestamp, title, link)` — a second insert of the same
key is a silent no-op, and starting from a table with no row of that key, two
inserts leave exactly one matching row.  For enriched detail items, however,
the insertion of `sync_scrape_post` can never store a row at all: the
`MarketplacePostDetails(...)` call passes a `classification` keyword that
`models.py` does not map, so the constructor raises and every would-be insert
ends as an item error (the claim is right about the intended check-then-skip
logic, the code's model is missing the column). -/
theorem c7_natural_key_insert (db : List MarketplacePostRow) (s : Nat)
    (ts ti au li : String) :
    insert_marketplace_post (insert_marketplace_post db s ts ti au li) s ts ti au li =
      insert_marketplace_post db s ts ti au li ∧
    (db.countP (fun r => r.scan_id = s && r.timestamp = ts &&
        r.title = ti && r.link = li) = 0 →
      (insert_marketplace_post (insert_marketplace_post db s ts ti au li)
          s ts ti au li).countP
        (fun r => r.scan_id = s && r.timestamp = ts &&
          r.title = ti && r.link = li) = 1) ∧
    (∀ (nfkc : String → String) (env : ItemEnv) (scan_id : Nat)
        (batch_name pts url : String) (row : MarketplacePostDetailsRow),
      sync_scrape_post_item nfkc env scan_id batch_name pts url ≠
        ItemResult.inserted row) := by
  have hrow : (fun r : MarketplacePostRow => r.scan_id = s && r.timestamp = ts &&
      r.title = ti && r.link = li) ⟨s, ts, ti, au, li⟩ = true := by simp
  have hidem : insert_marketplace_post (insert_marketplace_post db s ts ti au li)
      s ts ti au li = insert_marketplace_post db s ts ti au li := by
    by_cases h : db.any (fun r => r.scan_id = s && r.timestamp = ts &&
        r.title = ti && r.link = li) = true
    · simp [insert_marketplace_post, h]
    · simp [insert_marketplace_post, h, List.any_append, hrow]
  refine ⟨hidem, ?_, ?_⟩
  · intro h0
    have hany : db.any (fun r => r.scan_id = s && r.timestamp = ts &&
        r.title = ti && r.link = li) = false := by
      rw [List.any_eq_false]
      exact fun x hx => by
        have := List.countP_eq_zero.mp h0 x hx
        simpa using this
    rw [hidem]
    rw [insert_marketplace_post, if_neg (by simp [hany])]
    rw [List.countP_append, List.countP_eq_zero.mpr (fun x hx => by
      have := List.countP_eq_zero.mp h0 x hx
      simpa using this)]
    simp [List.countP, List.countP.go, hrow]
  · intro nfkc env scan_id batch_name pts url row h
    have hk : declarative_kwargs_ok marketplace_post_details_columns
        post_details_insert_kwargs = false := by decide
    unfold sync_scrape_post_item at h
    repeat' split at h
    all_goals simp_all

/-- Witness for C7: two inserts of the natural key into an empty table leave
exactly one row, and the detail pipeline at a concrete fully-successful item
still does not produce an inserted row. -/
theorem c7_natural_key_insert_witness :
    (insert_marketplace_post (insert_marketplace_post [] 1 "t" "T" "A" "l")
        1 "t" "T" "A" "l").countP
      (fun r => r.scan_id = 1 && r.timestamp = "t" &&
        r.title = "T" && r.link = "l") = 1 ∧
    sync_scrape_post_item id
      { scraped_raw_empty := false,
        scraped_json := some { error := none, title := some "T", content := some "C",
                               author := some "A", timestamp := some "t" },
        detect_title := some "en", detect_content := some "en",
        title_trans := none, content_trans := none,
        iab := some { classification := some "Neutral", sentiment := some "neutral",
                      scores_positive := some 0, scores_negative := some 0,
                      scores_neutral := some 1 },
        duplicate_exists := false }
      1 "batch_001" "t" "u" ≠
      ItemResult.inserted
        { scan_id := 1, batch_name := "batch_001", title := "T", content := "C",
          timestamp := "t", author := "A", link := "u",
          original_language := some "en", original_text := some "T",
          translated_language := some "en", translated_text := some "T",
          is_translated := false, sentiment := some "neutral",
          positive_score := some 0, negative_score := some 0,
          neutral_score := some 1 } :=
  ⟨(c7_natural_key_insert [] 1 "t" "T" "A" "l").2.1 (by decide),
   (c7_natural_key_insert [] 1 "t" "T" "A" "l").2.2 id _ 1 "batch_001" "t" "u" _⟩

/-! ## C9 -/

/-- C9 counterexample: when strict JSON parsing of the raw batch output fails,
the code does NOT quarantine-and-skip — it reinterprets the untrusted text
through `eval` (app/routes/marketplace.py line 290) and proceeds with the
sanitized result of that dynamic evaluation. -/
theorem c9_counterexample :
    parse_posts_data id none (some [("2025-01-01", ⟨"Title", "Auth", "/p/1"⟩)]) =
      .ok [("2025-01-01", ⟨"Title", "Auth", "/p/1"⟩)] ∧
    parse_posts_data id none (some [("2025-01-01", ⟨"Title", "Auth", "/p/1"⟩)]) ≠
      .error "Failed to sanitize JSON" := by
  exact ⟨rfl, by simp [parse_posts_data, sanitize_posts]⟩

/-- C9 (amended): successful JSON parses are used as-is; when JSON parsing
fails the code falls back to `eval` on the same untrusted text — the batch
fails (the exception is re-raised) only when that fallback also raises, and
otherwise continues with the sanitized eval result, which keeps the timestamp
keys, authors and links and reduces every title to pure ASCII. -/
theorem c9_eval_fallback (nfkc : String → String)
    (jsonLoads evalRaw : Option (List (String × RawPost)))
    (d raw : List (String × RawPost)) :
    (jsonLoads = some d → parse_posts_data nfkc jsonLoads evalRaw = .ok d) ∧
    (jsonLoads = none → evalRaw = none →
      parse_posts_data nfkc jsonLoads evalRaw = .error "Failed to sanitize JSON") ∧
    (jsonLoads = none → evalRaw = some raw →
      parse_posts_data nfkc jsonLoads evalRaw = .ok (sanitize_posts nfkc raw)) ∧
    (∀ p ∈ sanitize_posts nfkc raw, ∀ c ∈ p.2.title.data, c.toNat < 128) ∧
    ((sanitize_posts nfkc raw).map Prod.fst = raw.map Prod.fst) ∧
    (∀ p ∈ raw, ∃ q ∈ sanitize_posts nfkc raw,
      q.1 = p.1 ∧ q.2.author = p.2.author ∧ q.2.link = p.2.link) := by
  refine ⟨?_, ?_, ?_, ?_, ?_, ?_⟩
  · intro h
    rw [h]
    rfl
  · intro h1 h2
    rw [h1, h2]
    rfl
  · intro h1 h2
    rw [h1, h2]
    rfl
  · intro p hp c hc
    simp only [sanitize_posts, List.mem_map] at hp
    obtain ⟨q, _, rfl⟩ := hp
    have h2 := (List.mem_filter.mp hc).2
    simpa using h2
  · simp only [sanitize_posts, List.map_map]
    rfl
  · intro p hp
    exact ⟨(p.1, ⟨asciiEncodeIgnore (nfkc p.2.title), p.2.author, p.2.link⟩),
      List.mem_map.mpr ⟨p, hp, rfl⟩, rfl, rfl, rfl⟩

/-- Witness for C9's amended theorem: a successful JSON parse is used as-is,
and a JSON failure with a failing eval fallback fails the batch. -/
theorem c9_eval_fallback_witness :
    parse_posts_data id (some [("k", ⟨"T", "A", "L"⟩)]) none =
      .ok [("k", ⟨"T", "A", "L"⟩)] ∧
    parse_posts_data id none none = .error "Failed to sanitize JSON" :=
  ⟨(c9_eval_fallback id (some [("k", ⟨"T", "A", "L"⟩)]) none
      [("k", ⟨"T", "A", "L"⟩)] []).1 rfl,
   (c9_eval_fallback id none none [] []).2.1 rfl rfl⟩

/-! ## C2 -/

/-- C2 counterexample: the marketplace listing start filters bots only by
`session.isnot(None)`, so a single bot whose session token is the EMPTY STRING
counts as active and the scan is moved to `Running` — the claim said a start
with every matching bot's token null or empty is rejected on both paths. -/
theorem c2_counterexample :
    (⟨1, "b", BotPurpose.scrape_marketplace, "proxy", "ua",
        some ""⟩ : BotProfile).session = some "" ∧
    start_marketplace_post_scan
      [⟨1, "s", "pag", none, none, ScanStatus.stopped⟩]
      [⟨1, "b", BotPurpose.scrape_marketplace, "proxy", "ua", some ""⟩]
      [⟨"pag", "http://x", 3, [("1", ["u1"])]⟩] 1 0 =
      .ok [⟨1, "s", "pag", some 0, none, ScanStatus.running⟩] :=
  ⟨rfl, rfl⟩

/-- C2 (amended): the post-detail start admits a bot only with a non-null,
non-empty session token, and the marketplace listing start admits a bot with
any non-null token (the empty string included); on either path, when no
admissible bot exists the start returns an error (the scan is never moved to
`Running`), and a successful start implies an admissible bot existed. -/
theorem c2_start_eligibility (b : BotProfile)
    (scans : List MarketplacePostScanRow) (dscans : List PostDetailScanRow)
    (apis : List APIRow) (bots : List BotProfile)
    (pags : List MarketplacePaginationScanRow)
    (sscans : List MarketplacePostScanRow)
    (mposts : List MarketplacePostRow) (i j now : Nat) :
    (post_bot_active b = true ↔
      b.purpose = BotPurpose.scrape_post ∧ ∃ s, b.session = some s ∧ s ≠ "") ∧
    (marketplace_bot_active b = true ↔
      b.purpose = BotPurpose.scrape_marketplace ∧ ∃ s, b.session = some s) ∧
    ((bots.filter post_bot_active).isEmpty = true →
      ∃ e, start_post_detail_scan dscans apis bots sscans mposts j now = .error e) ∧
    ((bots.filter marketplace_bot_active).isEmpty = true →
      ∃ e, start_marketplace_post_scan scans bots pags i now = .error e) ∧
    (∀ out, start_post_detail_scan dscans apis bots sscans mposts j now = .ok out →
      ∃ b' ∈ bots, post_bot_active b' = true) ∧
    (∀ out, start_marketplace_post_scan scans bots pags i now = .ok out →
      ∃ b' ∈ bots, marketplace_bot_active b' = true) := by
  have hpostempty : (bots.filter post_bot_active).isEmpty = true →
      ∃ e, start_post_detail_scan dscans apis bots sscans mposts j now = .error e := by
    intro hemp
    unfold start_post_detail_scan
    repeat' split
    all_goals first
      | exact ⟨_, rfl⟩
      | simp_all
  have hmktempty : (bots.filter marketplace_bot_active).isEmpty = true →
      ∃ e, start_marketplace_post_scan scans bots pags i now = .error e := by
    intro hemp
    unfold start_marketplace_post_scan
    repeat' split
    all_goals first
      | exact ⟨_, rfl⟩
      | simp_all
  refine ⟨?_, ?_, hpostempty, hmktempty, ?_, ?_⟩
  · cases hs : b.session with
    | none => simp [post_bot_active, hs]
    | some s => simp [post_bot_active, hs]
  · cases hs : b.session with
    | none => simp [marketplace_bot_active, hs]
    | some s => simp [marketplace_bot_active, hs]
  · intro out hok
    by_cases hemp : (bots.filter post_bot_active).isEmpty = true
    · obtain ⟨e, he⟩ := hpostempty hemp
      rw [he] at hok
      cases hok
    · have hne : List.filter post_bot_active bots ≠ [] :=
        fun hnil => hemp (by rw [hnil]; rfl)
      obtain ⟨b', hb'⟩ := List.exists_mem_of_ne_nil _ hne
      have := List.mem_filter.mp hb'
      exact ⟨b', this.1, this.2⟩
  · intro out hok
    by_cases hemp : (bots.filter marketplace_bot_active).isEmpty = true
    · obtain ⟨e, he⟩ := hmktempty hemp
      rw [he] at hok
      cases hok
    · have hne : List.filter marketplace_bot_active bots ≠ [] :=
        fun hnil => hemp (by rw [hnil]; rfl)
      obtain ⟨b', hb'⟩ := List.exists_mem_of_ne_nil _ hne
      have := List.mem_filter.mp hb'
      exact ⟨b', this.1, this.2⟩

/-- Witness for C2's amended theorem: with no bots at all, both starts are
rejected with an error. -/
theorem c2_start_eligibility_witness :
    (∃ e, start_post_detail_scan
      [⟨1, "d", "src", none, none, ScanStatus.stopped, 5, "http://x"⟩]
      [] [] [] [] 1 0 = .error e) ∧
    (∃ e, start_marketplace_post_scan
      [⟨1, "s", "pag", none, none, ScanStatus.stopped⟩] [] [] 1 0 = .error e) :=
  ⟨(c2_start_eligibility ⟨1, "b", BotPurpose.scrape_post, "p", "ua", none⟩
      [⟨1, "s", "pag", none, none, ScanStatus.stopped⟩]
      [⟨1, "d", "src", none, none, ScanStatus.stopped, 5, "http://x"⟩]
      [] [] [] [] [] 1 1 0).2.2.1 (by decide),
   (c2_start_eligibility ⟨1, "b", BotPurpose.scrape_post, "p", "ua", none⟩
      [⟨1, "s", "pag", none, none, ScanStatus.stopped⟩]
      [⟨1, "d", "src", none, none, ScanStatus.stopped, 5, "http://x"⟩]
      [] [] [] [] [] 1 1 0).2.2.2.1 (by decide)⟩

/-! ## C3 -/

/-- C3 counterexample: a `Completed` marketplace post scan CAN be restarted in
place — the start endpoint only rejects scans whose status is `Running`, so
the completed scan is moved straight back to `Running`, contradicting the
claim that a completed scan can never be restarted. -/
theorem c3_counterexample :
    (⟨1, "s", "pag", some 5, some 9,
        ScanStatus.completed⟩ : MarketplacePostScanRow).status =
      ScanStatus.completed ∧
    start_marketplace_post_scan
      [⟨1, "s", "pag", some 5, some 9, ScanStatus.completed⟩]
      [⟨1, "b", BotPurpose.scrape_marketplace, "proxy", "ua", some "tok"⟩]
      [⟨"pag", "http://x", 3, [("1", ["u1"])]⟩] 1 11 =
      .ok [⟨1, "s", "pag", some 11, none, ScanStatus.running⟩] :=
  ⟨rfl, rfl⟩

/-- C3 (amended): the start operation rejects a scan as a conflict only when
its status is `Running`; a `Completed` scan (like a `Stopped` one) is
restarted in place whenever the remaining preconditions hold, moving it back
to `Running` — creating a new scan under a new name is not required.  This
holds on both the marketplace listing path and the post-detail path. -/
theorem c3_completed_restart (scans : List MarketplacePostScanRow)
    (bots : List BotProfile) (pags : List MarketplacePaginationScanRow)
    (dscans : List PostDetailScanRow) (apis : List APIRow)
    (sscans : List MarketplacePostScanRow) (mposts : List MarketplacePostRow)
    (i j now : Nat) (s : MarketplacePostScanRow) (d : PostDetailScanRow)
    (pg : MarketplacePaginationScanRow) (ta ia : APIRow)
    (src : MarketplacePostScanRow) :
    (scans.find? (fun r => r.id = i) = some s → s.status = ScanStatus.running →
      start_marketplace_post_scan scans bots pags i now = .error .alreadyRunning) ∧
    (dscans.find? (fun r => r.id = j) = some d → d.status = ScanStatus.running →
      start_post_detail_scan dscans apis bots sscans mposts j now =
        .error .alreadyRunning) ∧
    (scans.find? (fun r => r.id = i) = some s → s.status = ScanStatus.completed →
      (bots.filter marketplace_bot_active).isEmpty = false →
      pags.find? (fun p => p.scan_name = s.pagination_scan_name) = some pg →
      pg.batches.isEmpty = false →
      start_marketplace_post_scan scans bots pags i now =
        .ok (scans.map (fun r =>
          if r.id = i then
            { r with status := ScanStatus.running,
                     start_date := some now, completion_date := none }
          else r))) ∧
    (dscans.find? (fun r => r.id = j) = some d → d.status = ScanStatus.completed →
      apis.find? (fun a => a.api_type = "translation_api" && a.is_active) = some ta →
      apis.find? (fun a => a.api_type = "iab_api" && a.is_active) = some ia →
      (bots.filter post_bot_active).isEmpty = false →
      sscans.find? (fun r => r.scan_name = d.source_scan_name &&
        r.completion_date.isSome && r.status = ScanStatus.completed) = some src →
      (mposts.filter (fun p => p.scan_id = src.id)).isEmpty = false →
      d.site_url ≠ "" →
      d.batch_size ≠ 0 →
      start_post_detail_scan dscans apis bots sscans mposts j now =
        .ok (dscans.map (fun r =>
          if r.id = j then
            { r with status := ScanStatus.running,
                     start_date := some now, completion_date := none }
          else r))) ∧
    (dscans.find? (fun r => r.id = j) = some d → d.status ≠ ScanStatus.running →
      apis.find? (fun a => a.api_type = "translation_api" && a.is_active) = some ta →
      apis.find? (fun a => a.api_type = "iab_api" && a.is_active) = some ia →
      (bots.filter post_bot_active).isEmpty = false →
      sscans.find? (fun r => r.scan_name = d.source_scan_name &&
        r.completion_date.isSome && r.status = ScanStatus.completed) = some src →
      (mposts.filter (fun p => p.scan_id = src.id)).isEmpty = false →
      d.site_url ≠ "" →
      d.batch_size = 0 →
      start_post_detail_scan dscans apis bots sscans mposts j now =
        .error .internalError) := by
  refine ⟨?_, ?_, ?_, ?_, ?_⟩
  · intro hf hs
    unfold start_marketplace_post_scan
    rw [hf]
    simp only [hs, if_pos]
  · intro hf hs
    unfold start_post_detail_scan
    rw [hf]
    simp only [hs, if_pos]
  · intro hf hs hbots hpg hb
    unfold start_marketplace_post_scan
    simp [hf, hs, hbots, hpg, hb]
  · intro hf hs hta hia hbots hsrc hposts hurl hbs
    unfold start_post_detail_scan
    simp [create_post_batches, hf, hs, hta, hia, hbots, hsrc, hposts, hurl, hbs]
  · intro hf hs hta hia hbots hsrc hposts hurl hbs
    unfold start_post_detail_scan
    simp [create_post_batches, hf, hs, hta, hia, hbots, hsrc, hposts, hurl, hbs]

/-- Witness for C3's amended theorem: the concrete completed marketplace scan
from the counterexample's shape is restarted to `Running`, a running scan is
rejected, and a completed post-detail scan stored with `batch_size = 0` fails
with the pre-commit internal error instead of restarting. -/
theorem c3_completed_restart_witness :
    start_marketplace_post_scan
      [⟨1, "s", "pag", some 5, some 9, ScanStatus.completed⟩]
      [⟨1, "b", BotPurpose.scrape_marketplace, "proxy", "ua", some "tok"⟩]
      [⟨"pag", "http://x", 3, [("1", ["u1"])]⟩] 1 11 =
      .ok (([⟨1, "s", "pag", some 5, some 9, ScanStatus.completed⟩] :
          List MarketplacePostScanRow).map (fun r =>
        if r.id = 1 then
          { r with status := ScanStatus.running,
                   start_date := some 11, completion_date := none }
        else r)) ∧
    start_marketplace_post_scan
      [⟨1, "s", "pag", none, none, ScanStatus.running⟩] [] [] 1 0 =
      .error .alreadyRunning ∧
    start_post_detail_scan
      [⟨1, "d", "src", none, none, ScanStatus.completed, 0, "http://x"⟩]
      [⟨"translation_api", true, "k", "m", "p", 1⟩,
       ⟨"iab_api", true, "k", "m", "p", 1⟩]
      [⟨1, "b", BotPurpose.scrape_post, "p", "ua", some "tok"⟩]
      [⟨2, "src", "pag", some 1, some 2, ScanStatus.completed⟩]
      [⟨2, "t", "T", "a", "l"⟩] 1 0 = .error .internalError :=
  ⟨(c3_completed_restart
      [⟨1, "s", "pag", some 5, some 9, ScanStatus.completed⟩]
      [⟨1, "b", BotPurpose.scrape_marketplace, "proxy", "ua", some "tok"⟩]
      [⟨"pag", "http://x", 3, [("1", ["u1"])]⟩] [] [] [] [] 1 1 11
      ⟨1, "s", "pag", some 5, some 9, ScanStatus.completed⟩
      ⟨1, "d", "src", none, none, ScanStatus.stopped, 5, "http://x"⟩
      ⟨"pag", "http://x", 3, [("1", ["u1"])]⟩
      ⟨"translation_api", true, "k", "m", "p", 1⟩
      ⟨"iab_api", true, "k", "m", "p", 1⟩
      ⟨1, "src", "pag", some 1, some 2, ScanStatus.completed⟩).2.2.1
      (by decide) rfl (by decide) (by decide) (by decide),
   (c3_completed_restart
      [⟨1, "s", "pag", none, none, ScanStatus.running⟩] [] [] [] [] [] [] 1 1 0
      ⟨1, "s", "pag", none, none, ScanStatus.running⟩
      ⟨1, "d", "src", none, none, ScanStatus.stopped, 5, "http://x"⟩
      ⟨"pag", "http://x", 3, [("1", ["u1"])]⟩
      ⟨"translation_api", true, "k", "m", "p", 1⟩
      ⟨"iab_api", true, "k", "m", "p", 1⟩
      ⟨1, "src", "pag", some 1, some 2, ScanStatus.completed⟩).1
      (by decide) rfl,
   (c3_completed_restart []
      [⟨1, "b", BotPurpose.scrape_post, "p", "ua", some "tok"⟩] []
      [⟨1, "d", "src", none, none, ScanStatus.completed, 0, "http://x"⟩]
      [⟨"translation_api", true, "k", "m", "p", 1⟩,
       ⟨"iab_api", true, "k", "m", "p", 1⟩]
      [⟨2, "src", "pag", some 1, some 2, ScanStatus.completed⟩]
      [⟨2, "t", "T", "a", "l"⟩] 1 1 0
      ⟨1, "s", "pag", none, none, ScanStatus.stopped⟩
      ⟨1, "d", "src", none, none, ScanStatus.completed, 0, "http://x"⟩
      ⟨"pag", "http://x", 3, [("1", ["u1"])]⟩
      ⟨"translation_api", true, "k", "m", "p", 1⟩
      ⟨"iab_api", true, "k", "m", "p", 1⟩
      ⟨2, "src", "pag", some 1, some 2, ScanStatus.completed⟩).2.2.2.2
      (by decide) (by decide) (by decide) (by decide) (by decide) (by decide)
      (by decide) (by decide) rfl⟩

/-! ## C10 -/

lemma dictUpsert_map_any (m : List (String × RawPost)) (k : String) (v : RawPost)
    (h : m.any (fun p => p.1 = k) = true) :
    (m.map (fun p => if p.1 = k then (k, v) else p)).any (fun p => p.1 = k) = true := by
  induction m with
  | nil => cases h
  | cons a t ih =>
    by_cases hk : a.1 = k
    · simp [hk]
    · have h' : t.any (fun p => p.1 = k) = true := by simpa [hk] using h
      simp [hk, ih h']

lemma dictUpsert_map_id (m : List (String × RawPost)) (k : String) (v : RawPost)
    (h : m.any (fun p => p.1 = k) = false) :
    m.map (fun p => if p.1 = k then (k, v) else p) = m := by
  have hall := List.any_eq_false.mp h
  calc m.map (fun p => if p.1 = k then (k, v) else p) = m.map id := by
        refine List.map_congr_left (fun p hp => ?_)
        have : ¬ p.1 = k := by simpa using hall p hp
        simp [this]
    _ = m := List.map_id m

lemma dictUpsert_last_wins (m : List (String × RawPost)) (k : String)
    (v1 v2 : RawPost) :
    dictUpsert (dictUpsert m k v1) k v2 = dictUpsert m k v2 := by
  by_cases h : m.any (fun p => p.1 = k) = true
  · unfold dictUpsert
    rw [if_pos h, if_pos (dictUpsert_map_any m k v1 h), if_pos h, List.map_map]
    refine List.map_congr_left (fun p _ => ?_)
    by_cases hk : p.1 = k <;> simp [hk]
  · have h' : m.any (fun p => p.1 = k) = false := by
      cases hany : m.any (fun p => p.1 = k)
      · rfl
      · exact absurd hany h
    unfold dictUpsert
    rw [if_neg h, if_pos (by simp [List.any_append]), if_neg h, List.map_append,
      dictUpsert_map_id m k v2 h']
    simp

lemma dictGet_dictUpsert (m : List (String × RawPost)) (k : String) (v : RawPost) :
    dictGet (dictUpsert m k v) k = some v := by
  by_cases h : m.any (fun p => p.1 = k) = true
  · unfold dictUpsert dictGet
    rw [if_pos h]
    induction m with
    | nil => cases h
    | cons a t ih =>
      by_cases hk : a.1 = k
      · simp [hk]
      · have h' : t.any (fun p => p.1 = k) = true := by simpa [hk] using h
        simpa [hk] using ih h'
  · have h' : m.any (fun p => p.1 = k) = false := by
      cases hany : m.any (fun p => p.1 = k)
      · rfl
      · exact absurd hany h
    unfold dictUpsert dictGet
    rw [if_neg h, List.find?_append, List.find?_eq_none.mpr (fun p hp => by
      simpa using List.any_eq_false.mp h' p hp)]
    simp

/-- C10: (i) `scrape_posts` processes only the first 10 table rows of each
page; (ii) within and across the pages of one batch the posts dict is keyed by
the timestamp string alone and a later row with the same timestamp overwrites
the earlier one, so only the last scraped row for a timestamp survives to
insertion; (iii) the `uix_scan_timestamp` unique constraint on
`(scan_id, timestamp)` is strictly stronger than the spec's four-field
`(scan, timestamp, title, link)` key, and under it two rows of the same scan
with equal timestamps and different titles cannot both be stored. -/
theorem c10_timestamp_keyed_listing (posts : List (String × RawPost))
    (rows : List (Option ScrapedRow)) (r1 r2 : ScrapedRow)
    (table : List MarketplacePostRow) (x y : MarketplacePostRow) :
    scrape_page posts (some rows) = scrape_page posts (some (rows.take 10)) ∧
    (r1.timestamp = r2.timestamp →
      dictGet (scrape_page [] (some [some r1, some r2])) r1.timestamp =
        some ⟨r2.title, r2.author, r2.link⟩) ∧
    (uixScanTimestamp table → uixScanTsTitleLink table) ∧
    (uixScanTsTitleLink [⟨1, "ts", "A", "a", "l1"⟩, ⟨1, "ts", "B", "a", "l2"⟩] ∧
      ¬ uixScanTimestamp [⟨1, "ts", "A", "a", "l1"⟩, ⟨1, "ts", "B", "a", "l2"⟩]) ∧
    (uixScanTimestamp table → x ∈ table → y ∈ table → x.scan_id = y.scan_id →
      x.timestamp = y.timestamp → x.title = y.title) := by
  refine ⟨?_, ?_, ?_, ?_, ?_⟩
  · unfold scrape_page
    dsimp only
    rw [List.take_take]
    norm_num
  · intro hts
    unfold scrape_page
    simp only [List.take, List.foldl]
    rw [hts]
    exact dictGet_dictUpsert _ _ _
  · intro h r1' hr1 r2' hr2 hsc hts _ _
    exact h r1' hr1 r2' hr2 hsc hts
  · constructor
    · intro r1' hr1 r2' hr2 hsc hts hti hli
      simp only [List.mem_cons, List.mem_singleton] at hr1 hr2
      rcases hr1 with rfl | rfl | h <;> rcases hr2 with rfl | rfl | h' <;>
        first | rfl | (exfalso; simp_all) | simp_all
    · intro h
      have := h ⟨1, "ts", "A", "a", "l1"⟩ (by simp) ⟨1, "ts", "B", "a", "l2"⟩ (by simp)
        rfl rfl
      simp at this
  · intro h hx hy hsc hts
    rw [h x hx y hy hsc hts]

/-- Witness for C10: two rows sharing the timestamp "ts" in one page leave
only the later row's data under that key, and the sample table with equal
timestamps but distinct titles violates the database constraint while
satisfying the spec's four-field key. -/
theorem c10_timestamp_keyed_listing_witness :
    dictGet (scrape_page []
        (some [some ⟨"T1", "a1", "ts", "l1"⟩, some ⟨"T2", "a2", "ts", "l2"⟩]))
      "ts" = some ⟨"T2", "a2", "l2"⟩ ∧
    ¬ uixScanTimestamp [⟨1, "ts", "A", "a", "l1"⟩, ⟨1, "ts", "B", "a", "l2"⟩] :=
  ⟨(c10_timestamp_keyed_listing [] [] ⟨"T1", "a1", "ts", "l1"⟩
      ⟨"T2", "a2", "ts", "l2"⟩ [] ⟨1, "t", "T", "a", "l"⟩ ⟨1, "t", "T", "a", "l"⟩).2.1 rfl,
   (c10_timestamp_keyed_listing [] [] ⟨"T1", "a1", "ts", "l1"⟩
      ⟨"T2", "a2", "ts", "l2"⟩ [] ⟨1, "t", "T", "a", "l"⟩ ⟨1, "t", "T", "a", "l"⟩).2.2.2.1.2⟩

/-! ## C6 -/

lemma searchSix_some_spec :
    ∀ (s r : List Char), searchSix s = some r →
      r.length = 6 ∧ r.all isCaptchaChar = true ∧
      ∃ pre post, s = pre ++ r ++ post ∧
        ∀ pre' mid' post', s = pre' ++ mid' ++ post' → mid'.length = 6 →
          mid'.all isCaptchaChar = true → pre.length ≤ pre'.length := by
  intro s
  induction s with
  | nil => intro r h; cases h
  | cons c t ih =>
    intro r h
    rw [searchSix] at h
    by_cases hcond : (((c :: t).take 6).length = 6 &&
        ((c :: t).take 6).all isCaptchaChar) = true
    · rw [if_pos hcond] at h
      obtain ⟨hlen, hall⟩ := Bool.and_eq_true_iff.mp hcond
      obtain rfl : (c :: t).take 6 = r := Option.some.injEq _ _ ▸ h
      refine ⟨by simpa using hlen, hall, [], (c :: t).drop 6, ?_, ?_⟩
      · simp [List.take_append_drop]
      · intro pre' mid' post' _ _ _
        simp
    · rw [if_neg hcond] at h
      obtain ⟨hlen, hall, pre, post, hsplit, hmin⟩ := ih r h
      refine ⟨hlen, hall, c :: pre, post, by simp [hsplit], ?_⟩
      intro pre' mid' post' hs hlen' hall'
      cases pre' with
      | nil =>
        exfalso
        apply hcond
        simp only [List.nil_append] at hs
        have htake : (c :: t).take 6 = mid' := by
          rw [hs, ← hlen', List.take_left]
        rw [htake, hlen']
        simp [hall']
      | cons c' pre'' =>
        have hs' : t = pre'' ++ mid' ++ post' := by
          simpa using congrArg List.tail hs
        have := hmin pre'' mid' post' hs' hlen' hall'
        simpa using Nat.succ_le_succ this

lemma searchSix_isSome_of_window :
    ∀ (pre mid post : List Char), mid.length = 6 → mid.all isCaptchaChar = true →
      (searchSix (pre ++ mid ++ post)).isSome = true := by
  intro pre
  induction pre with
  | nil =>
    intro mid post hlen hall
    cases mid with
    | nil => simp at hlen
    | cons m ms =>
      rw [List.nil_append]
      show (searchSix ((m :: ms) ++ post)).isSome = true
      rw [List.cons_append, searchSix]
      rw [if_pos ?_]
      · rfl
      · have htake : (m :: (ms ++ post)).take 6 = m :: ms := by
          rw [← List.cons_append, ← hlen]
          exact List.take_left _ _
        rw [htake, hlen]
        simp [hall]
  | cons c pre' ih =>
    intro mid post hlen hall
    rw [List.cons_append, List.cons_append, searchSix]
    by_cases hcond : (((c :: (pre' ++ mid ++ post)).take 6).length = 6 &&
        ((c :: (pre' ++ mid ++ post)).take 6).all isCaptchaChar) = true
    · rw [if_pos hcond]
      rfl
    · rw [if_neg hcond]
      exact ih mid post hlen hall

/-- C6 counterexample: the reply "ABCDEF GHIJKL" contains TWO runs of 6
uppercase alphanumerics, not exactly one, yet `clean_captcha_text` accepts it
and returns the first run — the extraction rule is `re.search` for the first
6-character window, not an exactly-one-run filter. -/
theorem c6_counterexample :
    ((captchaRuns "ABCDEF GHIJKL".data).filter
      (fun r => r.length = 6)).length = 2 ∧
    specExactlyOneRunOfSix "ABCDEF GHIJKL".data = false ∧
    clean_captcha_text "ABCDEF GHIJKL".data = some "ABCDEF".data := by
  refine ⟨by decide, by decide, by decide⟩

/-- C6 (amended): the activator accepts a free-text answer exactly when it
contains AT LEAST ONE window of 6 consecutive uppercase alphanumeric
characters, returning the leftmost such window as the challenge code; when no
such window exists the cleaner returns `None`, `solve_captcha` fails, and the
attempt is counted as a retryable failure. -/
theorem c6_captcha_extraction (s : List Char) (resize_ok : Bool)
    (b64 : Option String) (txt : String) (resp : Option String) :
    ((clean_captcha_text s).isSome = true ↔
      ∃ pre mid post, s = pre ++ mid ++ post ∧ mid.length = 6 ∧
        mid.all isCaptchaChar = true) ∧
    (∀ r, clean_captcha_text s = some r →
      r.length = 6 ∧ r.all isCaptchaChar = true ∧
      ∃ pre post, s = pre ++ r ++ post ∧
        ∀ pre' mid' post', s = pre' ++ mid' ++ post' → mid'.length = 6 →
          mid'.all isCaptchaChar = true → pre.length ≤ pre'.length) ∧
    (clean_captcha_text (pyStrip txt).data = none →
      solve_captcha resize_ok b64 (some txt) = none) ∧
    login_attempt none resp = AttemptOutcome.retry := by
  refine ⟨⟨?_, ?_⟩, ?_, ?_, rfl⟩
  · intro h
    obtain ⟨r, hr⟩ := Option.isSome_iff_exists.mp h
    obtain ⟨hlen, hall, pre, post, hsplit, _⟩ := searchSix_some_spec s r hr
    exact ⟨pre, r, post, hsplit, hlen, hall⟩
  · rintro ⟨pre, mid, post, rfl, hlen, hall⟩
    exact searchSix_isSome_of_window pre mid post hlen hall
  · intro r hr
    exact searchSix_some_spec s r hr
  · intro h
    cases resize_ok with
    | false => rfl
    | true =>
      cases b64 with
      | none => rfl
      | some b =>
        unfold solve_captcha
        simp [h]

/-- Witness for C6's amended theorem: a text containing the window "AB12CD"
is accepted, and a text with no window makes the solve fail. -/
theorem c6_captcha_extraction_witness :
    (clean_captcha_text "xx AB12CD yy".data).isSome = true ∧
    solve_captcha true (some "img") (some "no code here") = none :=
  ⟨(c6_captcha_extraction "xx AB12CD yy".data true (some "img") "no code here"
      none).1.mpr ⟨"xx ".data, "AB12CD".data, " yy".data, by decide, by decide, by decide⟩,
   (c6_captcha_extraction "x".data true (some "img") "no code here" none).2.2.1
      (by decide)⟩

end Tornet
